import Mathlib

/-!
Verification of the AllWrite panel layout engine.

This file gives a shallow embedding of the layout-engine portions of the
AllWrite sources and proves the frozen claims about them:

* `PanelSystem` (src/unnamed/part_001): the panel geometry store with
  `createPanel`, `removePanel`, `clearAllPanels`, `getPanelState`,
  `restorePanelState` and the `drag` move handler.
* `SetupDialog` (src/unnamed/part_004): the one-time panel selection dialog.
* the layout template registry `layouts` (src/unnamed/part_002).
* `App.loadSection`, `App.saveProjectState` and
  `App.adjustCharacterPanelLayout` (src/app.js).

Modelling conventions:
* JavaScript `Map` objects become association lists in insertion order
  (`mapSet` keeps the original position of an existing key, exactly like
  `Map.prototype.set`); `mapLookup` is `Map.prototype.get`.
* A rendered DOM element is abstracted to its geometry record `Elem`;
  reading `offsetWidth` / `offsetHeight` reads the `width` / `height`
  fields, and `parseInt(style.left)` reads `left`.  Fields of the real
  element that no verified claim observes (z-index, CSS classes, child
  nodes) are omitted.
* DOM attachment is tracked explicitly: every tracked instance owns its
  element, and elements that stay attached to a container after the store
  stops tracking them are collected in `orphans`.
* Pixel quantities are integers; `Math.floor` of the exact rational
  products `W * 0.70` / `W * 0.30` is modelled with integer floor division
  (`Int.fdiv (W * 70) 100`).  At the inputs used by the theorems below the
  IEEE-754 double computations of the source produce the same integers.
-/

namespace AllWrite

/-- A panel configuration record: identity, title and default geometry.
Template entries (part_002), setup-dialog results and saved layout
snapshots all have this shape; a snapshot carries no `hidden` property,
which JavaScript treats as `false`, so snapshots use `hidden := false`. -/
structure PanelConfig where
  id : String
  title : String
  x : Int
  y : Int
  width : Int
  height : Int
  hidden : Bool := false
  deriving Repr, DecidableEq

/-- The CSS `display` value of a panel element: never set, `none`, or
`block`. -/
inductive Display where
  | unset
  | none
  | block
  deriving Repr, DecidableEq

/-- A rendered panel element, abstracted to the geometry the layout engine
reads and writes, plus the container it is attached to (containers are
identified by number). -/
structure Elem where
  left : Int
  top : Int
  width : Int
  height : Int
  display : Display
  container : Nat
  deriving Repr, DecidableEq

/-- A tracked panel instance: the element handle together with the config
object stored alongside it (`this.panels.set(id, {element, config})`). -/
structure PanelInst where
  elem : Elem
  config : PanelConfig
  deriving Repr, DecidableEq

/-- `Map.prototype.get`: first binding of the key, if any. -/
def mapLookup {α : Type} (m : List (String × α)) (k : String) : Option α :=
  match m with
  | [] => Option.none
  | (k₁, v) :: rest => if k₁ = k then some v else mapLookup rest k

/-- `Map.prototype.set`: replace the binding of an existing key in place
(keeping its insertion position), else append a new binding. -/
def mapSet {α : Type} (m : List (String × α)) (k : String) (v : α) :
    List (String × α) :=
  match m with
  | [] => [(k, v)]
  | (k₁, v₁) :: rest =>
      if k₁ = k then (k, v) :: rest else (k₁, v₁) :: mapSet rest k v

/-- `Map.prototype.delete`: drop the binding of the key, if present. -/
def mapDelete {α : Type} (m : List (String × α)) (k : String) :
    List (String × α) :=
  match m with
  | [] => []
  | (k₁, v₁) :: rest =>
      if k₁ = k then rest else (k₁, v₁) :: mapDelete rest k

/-- The panel geometry store (class `PanelSystem`, part_001): the `panels`
map in insertion order, plus the elements that remain attached to some
container without being tracked any more. -/
structure PanelSystem where
  panels : List (String × PanelInst)
  orphans : List Elem
  deriving Repr, DecidableEq

/-- The store of a freshly constructed `PanelSystem` (empty map). -/
def PanelSystem.empty : PanelSystem := ⟨[], []⟩

/-- The element created for a config by `createPanel` (part_001 lines
123-133): geometry from the config, `display:none` iff `hidden`, appended
to the given container. -/
def mkElem (cfg : PanelConfig) (container : Nat) : Elem :=
  { left := cfg.x
    top := cfg.y
    width := cfg.width
    height := cfg.height
    display := if cfg.hidden then Display.none else Display.unset
    container := container }

/-- `PanelSystem.createPanel` (part_001 lines 122-170): build a fresh
element in the container and `this.panels.set(id, {element, config})`.
The source performs no duplicate-id check: if the id is already tracked,
the map binding is overwritten and the previously tracked element stays
attached to its container (it becomes an orphan of the model). -/
def PanelSystem.createPanel (s : PanelSystem) (cfg : PanelConfig)
    (container : Nat) : PanelSystem :=
  let e := mkElem cfg container
  match mapLookup s.panels cfg.id with
  | some old =>
      { panels := mapSet s.panels cfg.id ⟨e, cfg⟩
        orphans := s.orphans ++ [old.elem] }
  | Option.none =>
      { panels := mapSet s.panels cfg.id ⟨e, cfg⟩
        orphans := s.orphans }

/-- `PanelSystem.removePanel` (part_001 lines 242-248): detach the tracked
element and delete the map binding; no-op when the id is absent. -/
def PanelSystem.removePanel (s : PanelSystem) (panelId : String) :
    PanelSystem :=
  match mapLookup s.panels panelId with
  | some _ => { panels := mapDelete s.panels panelId, orphans := s.orphans }
  | Option.none => s

/-- `PanelSystem.clearAllPanels` (part_001 lines 254-259): detach every
tracked element and clear the map.  The `container` argument is accepted
but never read by the source body. -/
def PanelSystem.clearAllPanels (s : PanelSystem) (container : Nat) :
    PanelSystem :=
  { panels := [], orphans := s.orphans }

/-- The record `getPanelState` pushes for one tracked instance (part_001
lines 281-288): id and title from the stored config, geometry from the
rendered element.  The pushed object has no `hidden` property, which
JavaScript consumers read as false. -/
def snapOf (inst : PanelInst) : PanelConfig :=
  { id := inst.config.id
    title := inst.config.title
    x := inst.elem.left
    y := inst.elem.top
    width := inst.elem.width
    height := inst.elem.height
    hidden := false }

/-- `PanelSystem.getPanelState` (part_001 lines 278-291): snapshot of every
tracked instance, in map iteration (= insertion) order. -/
def PanelSystem.getPanelState (s : PanelSystem) : List PanelConfig :=
  s.panels.map (fun p => snapOf p.2)

/-- Overwrite a tracked instance's element geometry with a saved entry's
geometry (part_001 lines 302-305). -/
def applyGeom (inst : PanelInst) (ps : PanelConfig) : PanelInst :=
  { inst with
      elem := { inst.elem with
                  left := ps.x
                  top := ps.y
                  width := ps.width
                  height := ps.height } }

/-- One iteration of the `restorePanelState` loop (part_001 lines 299-307):
look the entry's id up in the map and, when tracked, overwrite that
instance's geometry; otherwise do nothing. -/
def restoreOne (panels : List (String × PanelInst)) (ps : PanelConfig) :
    List (String × PanelInst) :=
  match mapLookup panels ps.id with
  | some inst => mapSet panels ps.id (applyGeom inst ps)
  | Option.none => panels

/-- `PanelSystem.restorePanelState` (part_001 lines 298-308): apply
`restoreOne` to each saved entry in order.  The `container` argument is
accepted but never read by the source body. -/
def PanelSystem.restorePanelState (s : PanelSystem)
    (state : List PanelConfig) (container : Nat) : PanelSystem :=
  { s with panels := state.foldl restoreOne s.panels }

/-- The last entry of a saved state whose id is `k`, if any: since
`restorePanelState` processes entries in order and each matching entry
overwrites the tracked geometry, the last matching entry determines the
final geometry. -/
def lastEntry (st : List PanelConfig) (k : String) : Option PanelConfig :=
  match st with
  | [] => Option.none
  | ps :: rest =>
      match lastEntry rest k with
      | some q => some q
      | Option.none => if ps.id = k then some ps else Option.none

/-- Store well-formedness, maintained by the `Map` in the source: tracked
ids are pairwise distinct and every binding stores the config whose id it
is keyed by. -/
def PanelSystem.WellFormed (s : PanelSystem) : Prop :=
  (s.panels.map Prod.fst).Nodup ∧ ∀ p ∈ s.panels, p.2.config.id = p.1

instance (s : PanelSystem) : Decidable s.WellFormed := by
  unfold PanelSystem.WellFormed
  infer_instance

/-! ## Drag Controller (part_001 lines 205-220) -/

/-- A pointer-move event, reduced to the client coordinates the `drag`
handler reads. -/
structure Pointer where
  clientX : Int
  clientY : Int
  deriving Repr, DecidableEq

/-- A bounding client rectangle (the drag handler reads the container's
left, top, width and height). -/
structure Rect where
  left : Int
  top : Int
  width : Int
  height : Int
  deriving Repr, DecidableEq

/-- `PanelSystem.drag` (part_001 lines 205-220), as the position it assigns
to the dragged panel for one pointer-move event: the raw position is
`pointer − containerOrigin − dragOffset`, and each axis is clamped with
`Math.max(0, Math.min(raw, containerExtent - panelExtent))`. -/
def PanelSystem.drag (containerRect : Rect) (dragOffset : Int × Int)
    (panelWidth panelHeight : Int) (e : Pointer) : Int × Int :=
  let x := e.clientX - containerRect.left - dragOffset.1
  let y := e.clientY - containerRect.top - dragOffset.2
  (max 0 (min x (containerRect.width - panelWidth)),
   max 0 (min y (containerRect.height - panelHeight)))

/-- A whole drag gesture: starting from the panel's position at
pointer-down, every pointer-move event reassigns the panel's position via
`PanelSystem.drag` (the new position depends only on the current event,
the captured offset and the container, exactly as in the source). -/
def PanelSystem.dragTrajectory (containerRect : Rect)
    (dragOffset : Int × Int) (panelWidth panelHeight : Int)
    (start : Int × Int) (traj : List Pointer) : Int × Int :=
  traj.foldl
    (fun _ e => PanelSystem.drag containerRect dragOffset panelWidth panelHeight e)
    start

/-! ## Adaptive Split Layout (src/app.js lines 455-522) -/

/-- The character sub-view (`window.currentCharacterView`). -/
inductive ViewMode where
  | list
  | card
  | importance
  deriving Repr, DecidableEq

/-- The geometry assigned to one panel's style by
`adjustCharacterPanelLayout`. -/
structure PanelRect where
  left : Int
  top : Int
  width : Int
  height : Int
  deriving Repr, DecidableEq

/-- The clamp helper of `adjustCharacterPanelLayout` (app.js line 469):
`(val, min, max) => Math.max(min, Math.min(max, val))`. -/
def clamp (val lo hi : Int) : Int := max lo (min hi val)

/-- `App.adjustCharacterPanelLayout` (app.js lines 455-522), reduced to the
geometry it assigns: given the container size, the current view and the
editor-visibility flag, return the list panel's rectangle and, when the
editor is laid out, the editor panel's rectangle.  The percentage products
`containerWidth * 0.70` (resp. `0.65`, `0.30`, `0.35`) followed by
`Math.floor` are modelled exactly with integer floor division; at the
container widths the theorems below use, the source's double-precision
results coincide. -/
def App.adjustCharacterPanelLayout (containerWidth containerHeight : Int)
    (currentView : ViewMode) (editorVisible : Bool) :
    PanelRect × Option PanelRect :=
  if editorVisible then
    let maxEditorPct : Int :=
      if currentView = ViewMode.importance then 65 else 70
    let minEditorPx : Int := 320
    let gapPx : Int := 10
    let listWidth := Int.fdiv (containerWidth * (100 - maxEditorPct)) 100
    let editorWidth := containerWidth - listWidth - gapPx
    let editorWidth :=
      clamp editorWidth minEditorPx (Int.fdiv (containerWidth * maxEditorPct) 100)
    let listWidth := clamp (containerWidth - editorWidth - gapPx) 280 containerWidth
    (⟨0, 0, listWidth, containerHeight⟩,
     some ⟨listWidth + gapPx, 0, editorWidth, containerHeight⟩)
  else
    (⟨0, 0, containerWidth, containerHeight⟩, Option.none)

/-! ## Setup Dialog (src/unnamed/part_004 lines 17-97) -/

/-- A user interaction with one checkbox of the setup dialog: checking or
unchecking the panel with the given id. -/
inductive CheckboxEvent where
  | check (panelId : String)
  | uncheck (panelId : String)
  deriving Repr, DecidableEq

/-- The checkbox change handler of `SetupDialog.show` (part_004 lines
48-56): checking pushes the id unless already selected, unchecking filters
it out. -/
def SetupDialog.applyEvent (selected : List String) :
    CheckboxEvent → List String
  | CheckboxEvent.check pid =>
      if selected.contains pid then selected else selected ++ [pid]
  | CheckboxEvent.uncheck pid => selected.filter (fun i => i != pid)

/-- `SetupDialog.show` (part_004 lines 17-97) as a function of the user's
checkbox interactions: every available panel starts selected (line 66),
the events mutate the selection, and Continue resolves with the available
panels whose id is still selected (lines 79-82). -/
def SetupDialog.show (availablePanels : List PanelConfig)
    (events : List CheckboxEvent) : List PanelConfig :=
  let selected :=
    events.foldl SetupDialog.applyEvent (availablePanels.map PanelConfig.id)
  availablePanels.filter (fun panel => selected.contains panel.id)

/-! ## Layout Template Registry (src/unnamed/part_002) -/

/-- One section's entry of the layout template registry. -/
structure SectionLayout where
  name : String
  panels : List PanelConfig
  deriving Repr, DecidableEq

/-- The `layouts` constant (part_002 lines 7-126). -/
def layouts : List (String × SectionLayout) :=
  [("writing",
    { name := "Writing"
      panels :=
        [{ id := "editor", title := "Editor",
           x := 0, y := 0, width := 800, height := 600 },
         { id := "character-panel", title := "Characters",
           x := 810, y := 0, width := 350, height := 280 },
         { id := "world-panel", title := "World Notes",
           x := 810, y := 290, width := 350, height := 310 }] }),
   ("plotting",
    { name := "Plotting"
      panels :=
        [{ id := "plot-board", title := "Plot Board",
           x := 0, y := 0, width := 900, height := 600 },
         { id := "story-elements", title := "Story Elements",
           x := 910, y := 0, width := 250, height := 600 }] }),
   ("characters",
    { name := "Characters"
      panels :=
        [{ id := "character-list", title := "Character List",
           x := 0, y := 0, width := 1200, height := 600 },
         { id := "character-editor", title := "Character Details",
           x := 910, y := 0, width := 500, height := 600, hidden := true }] }),
   ("worldbuilding",
    { name := "World Building"
      panels :=
        [{ id := "world-tree", title := "World Structure",
           x := 0, y := 0, width := 250, height := 600 },
         { id := "world-editor", title := "World Details",
           x := 260, y := 0, width := 900, height := 600 }] }),
   ("research",
    { name := "Research"
      panels :=
        [{ id := "research-list", title := "Research Items",
           x := 0, y := 0, width := 400, height := 600 },
         { id := "research-viewer", title := "Research Details",
           x := 410, y := 0, width := 750, height := 600 }] })]

/-! ## App coordinator (src/app.js) -/

/-- The layout-relevant fields of the `App` instance: the three persisted
mappings and the panel store. -/
structure LayoutAppState where
  savedLayouts : List (String × List PanelConfig)
  setupSections : List (String × Bool)
  sectionPanelSelections : List (String × List String)
  panelSystem : PanelSystem
  deriving Repr, DecidableEq

/-- The `App` constructor's layout state (app.js lines 22-24): all three
mappings empty, fresh panel store. -/
def LayoutAppState.initial : LayoutAppState :=
  { savedLayouts := []
    setupSections := []
    sectionPanelSelections := []
    panelSystem := PanelSystem.empty }

/-- `App.loadSection` (app.js lines 246-299), reduced to its effect on the
layout state.  `registry` is the global `layouts` template registry,
passed explicitly so that theorems can vary it; `dialogEvents` models the
user's checkbox interactions should the one-time setup dialog be shown.
Steps, as in the source: clear the panel store; if a non-empty saved
layout exists use it verbatim (marking the section as set up if needed);
otherwise, if the section was never set up and the registry has a
template, run the setup dialog and record flag, selection and saved
layout; otherwise filter the template by the recorded selection.  Finally
create a panel per resulting config. -/
def App.loadSection (registry : List (String × SectionLayout))
    (dialogEvents : List CheckboxEvent) (st : LayoutAppState)
    (sectionName : String) (container : Nat) : LayoutAppState :=
  let st := { st with panelSystem := st.panelSystem.clearAllPanels container }
  let savedOpt := mapLookup st.savedLayouts sectionName
  let isSetup := (mapLookup st.setupSections sectionName).getD false
  let fallback : Option (List PanelConfig) × LayoutAppState :=
    if !isSetup then
      match mapLookup registry sectionName with
      | some layout =>
          let panelConfigs := SetupDialog.show layout.panels dialogEvents
          let selectedPanelIds := panelConfigs.map PanelConfig.id
          (some panelConfigs,
           { st with
               setupSections := mapSet st.setupSections sectionName true
               sectionPanelSelections :=
                 mapSet st.sectionPanelSelections sectionName selectedPanelIds
               savedLayouts := mapSet st.savedLayouts sectionName panelConfigs })
      | Option.none => (Option.none, st)
    else
      let selectedIds :=
        (mapLookup st.sectionPanelSelections sectionName).getD []
      match mapLookup registry sectionName with
      | some layout =>
          (some (layout.panels.filter (fun panel => selectedIds.contains panel.id)),
           st)
      | Option.none => (Option.none, st)
  let step :=
    match savedOpt with
    | some cfgs =>
        if 0 < cfgs.length then
          (some cfgs,
           if isSetup then st
           else { st with setupSections := mapSet st.setupSections sectionName true })
        else fallback
    | Option.none => fallback
  match step with
  | (some cfgs, st₁) =>
      if 0 < cfgs.length then
        { st₁ with
            panelSystem :=
              cfgs.foldl (fun sys cfg => sys.createPanel cfg container)
                st₁.panelSystem }
      else st₁
  | (Option.none, st₁) => st₁

/-- `App.saveProjectState` (app.js lines 560-586), reduced to its effect on
`savedLayouts`: with no current section, return immediately; otherwise
snapshot the panel store and overwrite the current section's saved layout
only when the snapshot is non-empty. -/
def App.saveProjectState (currentSection : Option String)
    (panelSystem : PanelSystem)
    (savedLayouts : List (String × List PanelConfig)) :
    List (String × List PanelConfig) :=
  match currentSection with
  | Option.none => savedLayouts
  | some sectionName =>
      let currentLayout := panelSystem.getPanelState
      if 0 < currentLayout.length then
        mapSet savedLayouts sectionName currentLayout
      else savedLayouts

/-! ## Sample data used by witnesses and counterexamples -/

/-- A sample panel config. -/
def sampleA : PanelConfig := ⟨"a", "Alpha", 0, 0, 100, 80, false⟩

/-- The same id as `sampleA` with different geometry. -/
def sampleA2 : PanelConfig := ⟨"a", "Alpha", 5, 0, 100, 80, false⟩

/-- A second sample panel config. -/
def sampleB : PanelConfig := ⟨"b", "Beta", 10, 20, 50, 40, false⟩

/-- A sample store with two panels in container 0. -/
def sampleStore : PanelSystem :=
  (PanelSystem.empty.createPanel sampleA 0).createPanel sampleB 0

/-- A sample store with panels in two different containers. -/
def sampleStore2 : PanelSystem :=
  (PanelSystem.empty.createPanel sampleA 0).createPanel sampleB 1

/-! ## Map lemmas -/

/-- Looking up the key just set yields the new value. -/
theorem mapLookup_mapSet_self {α : Type} (m : List (String × α)) (k : String)
    (v : α) : mapLookup (mapSet m k v) k = some v := by
  induction m with
  | nil => simp [mapSet, mapLookup]
  | cons p rest ih =>
      obtain ⟨k₁, v₁⟩ := p
      by_cases h : k₁ = k <;> simp [mapSet, mapLookup, h, ih]

/-- Setting one key does not affect lookups of another key. -/
theorem mapLookup_mapSet_ne {α : Type} (m : List (String × α)) {k j : String}
    (v : α) (h : k ≠ j) : mapLookup (mapSet m k v) j = mapLookup m j := by
  induction m with
  | nil => simp [mapSet, mapLookup, h]
  | cons p rest ih =>
      obtain ⟨k₁, v₁⟩ := p
      by_cases h₁ : k₁ = k
      · subst h₁; simp [mapSet, mapLookup, h]
      · simp [mapSet, mapLookup, h₁, ih]

/-- Setting a key that is already bound keeps the key list unchanged. -/
theorem mapSet_map_fst_of_lookup {α : Type} {m : List (String × α)}
    {k : String} {w : α} (h : mapLookup m k = some w) (v : α) :
    (mapSet m k v).map Prod.fst = m.map Prod.fst := by
  induction m with
  | nil => simp [mapLookup] at h
  | cons p rest ih =>
      obtain ⟨k₁, v₁⟩ := p
      by_cases h₁ : k₁ = k
      · subst h₁; simp [mapSet]
      · simp [mapLookup, h₁] at h
        simp [mapSet, h₁, ih h]

/-- Setting a key to the value it already has is a no-op. -/
theorem mapSet_lookup_self {α : Type} {m : List (String × α)} {k : String}
    {v : α} (h : mapLookup m k = some v) : mapSet m k v = m := by
  induction m with
  | nil => simp [mapLookup] at h
  | cons p rest ih =>
      obtain ⟨k₁, v₁⟩ := p
      by_cases h₁ : k₁ = k
      · subst h₁
        simp [mapLookup] at h
        simp [mapSet, h]
      · simp [mapLookup, h₁] at h
        simp [mapSet, h₁, ih h]

/-- With pairwise-distinct keys, membership determines the lookup result. -/
theorem mapLookup_of_mem_nodup {α : Type} {m : List (String × α)}
    {k : String} {v : α} (hnd : (m.map Prod.fst).Nodup) (hmem : (k, v) ∈ m) :
    mapLookup m k = some v := by
  induction m with
  | nil => simp at hmem
  | cons p rest ih =>
      obtain ⟨k₁, v₁⟩ := p
      simp only [List.map_cons, List.nodup_cons] at hnd
      rcases List.mem_cons.mp hmem with h | h
      · rw [Prod.mk.injEq] at h
        obtain ⟨hk, hv⟩ := h
        subst hk
        subst hv
        simp [mapLookup]
      · have hk₁ : k₁ ≠ k := by
          intro hEq
          refine hnd.1 ?_
          rw [hEq]
          exact List.mem_map.mpr ⟨(k, v), h, rfl⟩
        simp [mapLookup, hk₁, ih hnd.2 h]

/-! ## Drag lemmas -/

/-- One pointer-move: when the panel fits inside the container on both
axes, the clamped position keeps the panel's bounding box inside. -/
theorem dragStep_inside (r : Rect) (off : Int × Int) (pw ph : Int)
    (e : Pointer) (hW : pw ≤ r.width) (hH : ph ≤ r.height) :
    0 ≤ (PanelSystem.drag r off pw ph e).1 ∧
    0 ≤ (PanelSystem.drag r off pw ph e).2 ∧
    (PanelSystem.drag r off pw ph e).1 + pw ≤ r.width ∧
    (PanelSystem.drag r off pw ph e).2 + ph ≤ r.height := by
  have hx : (PanelSystem.drag r off pw ph e).1 =
      max 0 (min (e.clientX - r.left - off.1) (r.width - pw)) := rfl
  have hy : (PanelSystem.drag r off pw ph e).2 =
      max 0 (min (e.clientY - r.top - off.2) (r.height - ph)) := rfl
  rw [hx, hy]
  refine ⟨le_max_left _ _, le_max_left _ _, ?_, ?_⟩
  · have h1 : min (e.clientX - r.left - off.1) (r.width - pw) ≤ r.width - pw :=
      min_le_right _ _
    have h2 : (0 : Int) ≤ r.width - pw := by omega
    have h3 : max 0 (min (e.clientX - r.left - off.1) (r.width - pw)) ≤
        r.width - pw := max_le h2 h1
    omega
  · have h1 : min (e.clientY - r.top - off.2) (r.height - ph) ≤ r.height - ph :=
      min_le_right _ _
    have h2 : (0 : Int) ≤ r.height - ph := by omega
    have h3 : max 0 (min (e.clientY - r.top - off.2) (r.height - ph)) ≤
        r.height - ph := max_le h2 h1
    omega

/-- Unfolding one event of a drag trajectory. -/
theorem dragTrajectory_cons (r : Rect) (off : Int × Int) (pw ph : Int)
    (start : Int × Int) (e : Pointer) (traj : List Pointer) :
    PanelSystem.dragTrajectory r off pw ph start (e :: traj) =
      PanelSystem.dragTrajectory r off pw ph
        (PanelSystem.drag r off pw ph e) traj := rfl

/-! ## Claims -/

/-- C1 (amended): adaptive split worked example with `W = 1200`,
`viewMode = list`, `editorVisible = true`: `maxEditorFraction` is 0.70 and
the initial split is `listWidth = 360`, `editorWidth = 830`; the clamp
bound `floor(1200 × 0.70)` is 840 and `clamp 830 320 840 = 830`, so the
clamp leaves the editor width unchanged; the list width is recomputed to
`clamp(1200 − 830 − 10, 280, 1200) = 360`, and the final assigned widths
are `(listWidth, editorWidth) = (360, 830)`, with the list at `(0, 0)` and
the editor at `(370, 0)`. -/
theorem adjustCharacterPanelLayout_1200_list (H : Int) :
    Int.fdiv (1200 * (100 - 70)) 100 = 360 ∧
    1200 - 360 - 10 = 830 ∧
    Int.fdiv (1200 * 70) 100 = 840 ∧
    clamp 830 320 840 = 830 ∧
    clamp (1200 - 830 - 10) 280 1200 = 360 ∧
    App.adjustCharacterPanelLayout 1200 H ViewMode.list true =
      (⟨0, 0, 360, H⟩, some ⟨370, 0, 830, H⟩) :=
  ⟨rfl, rfl, rfl, rfl, rfl, rfl⟩

/-- C1 counterexample: at container width 1200 in list view with the
editor visible, the final widths are not `(350, 840)` as the claim states
(the code produces `(360, 830)`: the editor width 830 is already within
`[320, 840]`, so the clamp does not raise it to 840). -/
theorem adjustCharacterPanelLayout_1200_list_not_350_840 :
    ¬ ((App.adjustCharacterPanelLayout 1200 600 ViewMode.list true).1.width
          = 350 ∧
       (App.adjustCharacterPanelLayout 1200 600 ViewMode.list true).2.map
          PanelRect.width = some 840) := by decide

/-- C2 (amended): for every pointer trajectory (including positions
outside the container), provided the dragged panel fits inside the
container on both axes (`panelWidth ≤ containerWidth` and
`panelHeight ≤ containerHeight`), every move of a drag yields a position
with `0 ≤ x`, `0 ≤ y`, `x + width ≤ containerWidth` and
`y + height ≤ containerHeight`. -/
theorem dragTrajectory_inside (r : Rect) (off : Int × Int) (pw ph : Int)
    (start : Int × Int) (traj : List Pointer) (hW : pw ≤ r.width)
    (hH : ph ≤ r.height) (hne : traj ≠ []) :
    0 ≤ (PanelSystem.dragTrajectory r off pw ph start traj).1 ∧
    0 ≤ (PanelSystem.dragTrajectory r off pw ph start traj).2 ∧
    (PanelSystem.dragTrajectory r off pw ph start traj).1 + pw ≤ r.width ∧
    (PanelSystem.dragTrajectory r off pw ph start traj).2 + ph ≤ r.height := by
  induction traj generalizing start with
  | nil => exact absurd rfl hne
  | cons e rest ih =>
      rw [dragTrajectory_cons]
      cases rest with
      | nil => exact dragStep_inside r off pw ph e hW hH
      | cons e₂ rest₂ => exact ih _ (by simp)

/-- C2 witness: a concrete drag (panel 200×100 in an 800×600 container,
pointer moves far outside the container) whose final position satisfies
all four bounds. -/
theorem dragTrajectory_inside_witness :
    0 ≤ (PanelSystem.dragTrajectory ⟨0, 0, 800, 600⟩ (3, 4) 200 100 (5, 6)
          [⟨900, -50⟩, ⟨-100, 700⟩]).1 ∧
    0 ≤ (PanelSystem.dragTrajectory ⟨0, 0, 800, 600⟩ (3, 4) 200 100 (5, 6)
          [⟨900, -50⟩, ⟨-100, 700⟩]).2 ∧
    (PanelSystem.dragTrajectory ⟨0, 0, 800, 600⟩ (3, 4) 200 100 (5, 6)
          [⟨900, -50⟩, ⟨-100, 700⟩]).1 + 200 ≤ 800 ∧
    (PanelSystem.dragTrajectory ⟨0, 0, 800, 600⟩ (3, 4) 200 100 (5, 6)
          [⟨900, -50⟩, ⟨-100, 700⟩]).2 + 100 ≤ 600 :=
  dragTrajectory_inside ⟨0, 0, 800, 600⟩ (3, 4) 200 100 (5, 6)
    [⟨900, -50⟩, ⟨-100, 700⟩] (by decide) (by decide) (by decide)

/-- C2 counterexample: a panel of width 150 dragged in a container of
width 100 is clamped to `x = 0`, where `x + width = 150 > 100`, so the
claimed bounding-box invariant fails without a fits-in-container
hypothesis. -/
theorem dragTrajectory_inside_fails_when_oversized :
    ¬ (0 ≤ (PanelSystem.dragTrajectory ⟨0, 0, 100, 100⟩ (0, 0) 150 50 (0, 0)
            [⟨0, 0⟩]).1 ∧
       0 ≤ (PanelSystem.dragTrajectory ⟨0, 0, 100, 100⟩ (0, 0) 150 50 (0, 0)
            [⟨0, 0⟩]).2 ∧
       (PanelSystem.dragTrajectory ⟨0, 0, 100, 100⟩ (0, 0) 150 50 (0, 0)
            [⟨0, 0⟩]).1 + 150 ≤ 100 ∧
       (PanelSystem.dragTrajectory ⟨0, 0, 100, 100⟩ (0, 0) 150 50 (0, 0)
            [⟨0, 0⟩]).2 + 50 ≤ 100) := by decide

/-- C10 (confirmed): the drag clamp prioritizes the lower bound: the
assigned position is never negative on either axis, and whenever the
panel's width (resp. height) exceeds the container's, the assigned x
(resp. y) is exactly 0. -/
theorem drag_lower_bound_priority (r : Rect) (off : Int × Int)
    (pw ph : Int) (e : Pointer) :
    0 ≤ (PanelSystem.drag r off pw ph e).1 ∧
    0 ≤ (PanelSystem.drag r off pw ph e).2 ∧
    (r.width < pw → (PanelSystem.drag r off pw ph e).1 = 0) ∧
    (r.height < ph → (PanelSystem.drag r off pw ph e).2 = 0) := by
  have hx : (PanelSystem.drag r off pw ph e).1 =
      max 0 (min (e.clientX - r.left - off.1) (r.width - pw)) := rfl
  have hy : (PanelSystem.drag r off pw ph e).2 =
      max 0 (min (e.clientY - r.top - off.2) (r.height - ph)) := rfl
  rw [hx, hy]
  refine ⟨le_max_left _ _, le_max_left _ _, ?_, ?_⟩
  · intro hlt
    have h1 : min (e.clientX - r.left - off.1) (r.width - pw) ≤ r.width - pw :=
      min_le_right _ _
    have h2 : min (e.clientX - r.left - off.1) (r.width - pw) ≤ 0 := by omega
    exact max_eq_left h2
  · intro hlt
    have h1 : min (e.clientY - r.top - off.2) (r.height - ph) ≤ r.height - ph :=
      min_le_right _ _
    have h2 : min (e.clientY - r.top - off.2) (r.height - ph) ≤ 0 := by omega
    exact max_eq_left h2

/-- C10 witness: a 150×120 panel dragged in a 100×100 container is pinned
to `(0, 0)` for a concrete pointer position. -/
theorem drag_lower_bound_priority_witness :
    0 ≤ (PanelSystem.drag ⟨0, 0, 100, 100⟩ (0, 0) 150 120 ⟨30, 40⟩).1 ∧
    0 ≤ (PanelSystem.drag ⟨0, 0, 100, 100⟩ (0, 0) 150 120 ⟨30, 40⟩).2 ∧
    (PanelSystem.drag ⟨0, 0, 100, 100⟩ (0, 0) 150 120 ⟨30, 40⟩).1 = 0 ∧
    (PanelSystem.drag ⟨0, 0, 100, 100⟩ (0, 0) 150 120 ⟨30, 40⟩).2 = 0 :=
  ⟨(drag_lower_bound_priority ⟨0, 0, 100, 100⟩ (0, 0) 150 120 ⟨30, 40⟩).1,
   (drag_lower_bound_priority ⟨0, 0, 100, 100⟩ (0, 0) 150 120 ⟨30, 40⟩).2.1,
   (drag_lower_bound_priority ⟨0, 0, 100, 100⟩ (0, 0) 150 120 ⟨30, 40⟩).2.2.1
     (by decide),
   (drag_lower_bound_priority ⟨0, 0, 100, 100⟩ (0, 0) 150 120 ⟨30, 40⟩).2.2.2
     (by decide)⟩

/-! ## Restore lemmas -/

/-- One restore step never changes the key list of the store. -/
theorem restoreOne_map_fst (m : List (String × PanelInst)) (ps : PanelConfig) :
    (restoreOne m ps).map Prod.fst = m.map Prod.fst := by
  unfold restoreOne
  cases h : mapLookup m ps.id with
  | none => rfl
  | some inst => exact mapSet_map_fst_of_lookup h _

/-- The whole restore loop never changes the key list of the store. -/
theorem foldl_restoreOne_map_fst (st : List PanelConfig) :
    ∀ m : List (String × PanelInst),
      (st.foldl restoreOne m).map Prod.fst = m.map Prod.fst := by
  induction st with
  | nil => intro m; rfl
  | cons ps rest ih =>
      intro m
      rw [List.foldl_cons, ih, restoreOne_map_fst]

/-- Lookup after one restore step: the entry's own id now maps to the
geometry-overwritten instance (when tracked), every other id is
untouched. -/
theorem restoreOne_lookup (m : List (String × PanelInst)) (ps : PanelConfig)
    (k : String) :
    mapLookup (restoreOne m ps) k =
      if ps.id = k then (mapLookup m k).map (fun inst => applyGeom inst ps)
      else mapLookup m k := by
  unfold restoreOne
  by_cases hid : ps.id = k
  · subst hid
    cases h : mapLookup m ps.id with
    | none => simp [h]
    | some inst => simp [h, mapLookup_mapSet_self]
  · cases h : mapLookup m ps.id with
    | none => simp [hid]
    | some inst => simp [hid, mapLookup_mapSet_ne m _ hid]

/-- Overwriting a panel's geometry twice keeps only the last overwrite. -/
theorem applyGeom_applyGeom (inst : PanelInst) (p q : PanelConfig) :
    applyGeom (applyGeom inst p) q = applyGeom inst q := rfl

/-- Lookup after the whole restore loop: the id's tracked instance gets
the geometry of the last matching saved entry; ids with no matching entry
are untouched; untracked ids stay untracked. -/
theorem foldl_restoreOne_lookup (st : List PanelConfig) :
    ∀ (m : List (String × PanelInst)) (k : String),
      mapLookup (st.foldl restoreOne m) k =
        match lastEntry st k with
        | some ps => (mapLookup m k).map (fun inst => applyGeom inst ps)
        | Option.none => mapLookup m k := by
  induction st with
  | nil => intro m k; rfl
  | cons ps rest ih =>
      intro m k
      rw [List.foldl_cons, ih]
      by_cases hid : ps.id = k <;>
        cases hle : lastEntry rest k <;>
          cases hmk : mapLookup m k <;>
            simp [lastEntry, hle, hid, hmk, restoreOne_lookup,
              applyGeom_applyGeom]

/-- A fold of restore steps that are each the identity is the identity. -/
theorem foldl_restoreOne_const (l : List PanelConfig) :
    ∀ m, (∀ ps ∈ l, restoreOne m ps = m) → l.foldl restoreOne m = m := by
  induction l with
  | nil => intro m _; rfl
  | cons p rest ih =>
      intro m h
      rw [List.foldl_cons, h p (List.mem_cons_self p rest)]
      exact ih m (fun ps hps => h ps (List.mem_cons_of_mem p hps))

/-- C3 counterexample: `createPanel` with an already-tracked id is not a
no-op: calling it again for id `"a"` with `x = 5` leaves the store
different from before, and the tracked instance for `"a"` now has
`left = 5` where it had `left = 0`. -/
theorem createPanel_existing_id_not_noop :
    (PanelSystem.empty.createPanel sampleA 0).createPanel sampleA2 0 ≠
      PanelSystem.empty.createPanel sampleA 0 ∧
    (mapLookup ((PanelSystem.empty.createPanel sampleA 0).createPanel
        sampleA2 0).panels "a").map (fun inst => inst.elem.left) = some 5 ∧
    (mapLookup (PanelSystem.empty.createPanel sampleA 0).panels "a").map
        (fun inst => inst.elem.left) = some 0 := by decide

/-- C3 (amended): `createPanel` with a config whose id is already tracked
is an overwrite, not a no-op: the store's binding for that id is replaced
in place by a new instance at the config's geometry, no second binding
with that id is introduced (the key list is unchanged), and the
previously tracked element is left attached to its container untracked. -/
theorem createPanel_duplicate_id_overwrite (s : PanelSystem)
    (cfg : PanelConfig) (c : Nat) (inst : PanelInst)
    (h : mapLookup s.panels cfg.id = some inst) :
    (s.createPanel cfg c).panels =
      mapSet s.panels cfg.id ⟨mkElem cfg c, cfg⟩ ∧
    mapLookup (s.createPanel cfg c).panels cfg.id =
      some ⟨mkElem cfg c, cfg⟩ ∧
    (s.createPanel cfg c).panels.map Prod.fst = s.panels.map Prod.fst ∧
    (s.createPanel cfg c).orphans = s.orphans ++ [inst.elem] := by
  have hcp : s.createPanel cfg c =
      { panels := mapSet s.panels cfg.id ⟨mkElem cfg c, cfg⟩
        orphans := s.orphans ++ [inst.elem] } := by
    unfold PanelSystem.createPanel
    rw [h]
  rw [hcp]
  exact ⟨rfl, mapLookup_mapSet_self _ _ _, mapSet_map_fst_of_lookup h _, rfl⟩

/-- C3 witness: re-creating id `"a"` over `sampleA` with `sampleA2`
overwrites the binding, keeps the key list, and orphans the old element. -/
theorem createPanel_duplicate_id_overwrite_witness :
    ((PanelSystem.empty.createPanel sampleA 0).createPanel sampleA2 0).panels =
      mapSet (PanelSystem.empty.createPanel sampleA 0).panels sampleA2.id
        ⟨mkElem sampleA2 0, sampleA2⟩ ∧
    mapLookup (((PanelSystem.empty.createPanel sampleA 0).createPanel
        sampleA2 0).panels) sampleA2.id = some ⟨mkElem sampleA2 0, sampleA2⟩ ∧
    ((PanelSystem.empty.createPanel sampleA 0).createPanel
        sampleA2 0).panels.map Prod.fst =
      (PanelSystem.empty.createPanel sampleA 0).panels.map Prod.fst ∧
    ((PanelSystem.empty.createPanel sampleA 0).createPanel sampleA2 0).orphans =
      (PanelSystem.empty.createPanel sampleA 0).orphans ++ [mkElem sampleA 0] :=
  createPanel_duplicate_id_overwrite _ sampleA2 0 ⟨mkElem sampleA 0, sampleA⟩
    (by decide)

/-- C4 (confirmed): on a well-formed store, `restorePanelState` of the
store's own `getPanelState` snapshot is the identity: every panel's
geometry (and everything else) is exactly as it was. -/
theorem snapshot_restore_roundtrip (s : PanelSystem) (c : Nat)
    (hwf : s.WellFormed) :
    s.restorePanelState s.getPanelState c = s := by
  obtain ⟨hnd, hid⟩ := hwf
  have hpanels : s.getPanelState.foldl restoreOne s.panels = s.panels := by
    apply foldl_restoreOne_const
    intro ps hps
    unfold PanelSystem.getPanelState at hps
    obtain ⟨p, hp, rfl⟩ := List.mem_map.mp hps
    have hlook : mapLookup s.panels p.1 = some p.2 :=
      mapLookup_of_mem_nodup hnd hp
    have hkey : (snapOf p.2).id = p.1 := hid p hp
    unfold restoreOne
    rw [hkey, hlook]
    show mapSet s.panels p.1 (applyGeom p.2 (snapOf p.2)) = s.panels
    have happ : applyGeom p.2 (snapOf p.2) = p.2 := rfl
    rw [happ]
    exact mapSet_lookup_self hlook
  unfold PanelSystem.restorePanelState
  rw [hpanels]

/-- C4 witness: the round trip is the identity on a concrete well-formed
two-panel store. -/
theorem snapshot_restore_roundtrip_witness :
    sampleStore.WellFormed ∧
    sampleStore.restorePanelState sampleStore.getPanelState 0 = sampleStore :=
  ⟨by decide, snapshot_restore_roundtrip sampleStore 0 (by decide)⟩

/-- C5 (confirmed): `restorePanelState` overwrites the geometry of exactly
the tracked instances whose id matches a saved entry (each gets the last
matching entry's geometry), entries matching no tracked instance are
silently dropped, and no instance is created or removed: the key list
(and the orphan list) are unchanged, and every id's binding is
characterized by the match below. -/
theorem restorePanelState_exact_overwrite (s : PanelSystem)
    (st : List PanelConfig) (c : Nat) :
    (s.restorePanelState st c).panels.map Prod.fst = s.panels.map Prod.fst ∧
    (s.restorePanelState st c).orphans = s.orphans ∧
    ∀ k, mapLookup (s.restorePanelState st c).panels k =
      match lastEntry st k with
      | some ps => (mapLookup s.panels k).map (fun inst => applyGeom inst ps)
      | Option.none => mapLookup s.panels k :=
  ⟨foldl_restoreOne_map_fst st s.panels, rfl,
   fun k => foldl_restoreOne_lookup st s.panels k⟩

/-- C6 (confirmed): with template panels `a`, `b`, `c` and a first visit
in which the user deselects `b` in the setup dialog, the saved layout for
the section is exactly `[a, c]` (ids exactly `a` and `c`); and on a
subsequent entry — with an arbitrary registry and arbitrary dialog
interactions — exactly those two panels are instantiated verbatim from
the saved layout. -/
theorem loadSection_setup_flow
    (ta tb tc : String) (xa ya wa ha xb yb wb hb xc yc wc hc : Int)
    (hida hidb hidc : Bool) (cont cont2 : Nat)
    (registry2 : List (String × SectionLayout))
    (events2 : List CheckboxEvent) :
    let cfga : PanelConfig := ⟨"a", ta, xa, ya, wa, ha, hida⟩
    let cfgb : PanelConfig := ⟨"b", tb, xb, yb, wb, hb, hidb⟩
    let cfgc : PanelConfig := ⟨"c", tc, xc, yc, wc, hc, hidc⟩
    let st1 := App.loadSection [("sec", ⟨"Section", [cfga, cfgb, cfgc]⟩)]
      [CheckboxEvent.uncheck "b"] LayoutAppState.initial "sec" cont
    let st2 := App.loadSection registry2 events2 st1 "sec" cont2
    mapLookup st1.savedLayouts "sec" = some [cfga, cfgc] ∧
    (mapLookup st1.savedLayouts "sec").map (fun l => l.map PanelConfig.id) =
      some ["a", "c"] ∧
    st2.panelSystem.panels =
      [("a", ⟨mkElem cfga cont2, cfga⟩), ("c", ⟨mkElem cfgc cont2, cfgc⟩)] :=
  ⟨rfl, rfl, rfl⟩

/-- C7 (confirmed): reconciliation fallback: for a section `x` marked as
set up with recorded selection `[a, c]` but a saved layout that is absent
(or present and empty), entering with template `[a, b, c, d]` instantiates
exactly the panels `a` and `c`, each at its template default geometry. -/
theorem loadSection_reconciliation_fallback
    (ta tb tc td : String)
    (xa ya wa ha xb yb wb hb xc yc wc hc xd yd wd hd : Int)
    (hida hidb hidc hidd : Bool) (cont : Nat) (events : List CheckboxEvent) :
    let cfga : PanelConfig := ⟨"a", ta, xa, ya, wa, ha, hida⟩
    let cfgb : PanelConfig := ⟨"b", tb, xb, yb, wb, hb, hidb⟩
    let cfgc : PanelConfig := ⟨"c", tc, xc, yc, wc, hc, hidc⟩
    let cfgd : PanelConfig := ⟨"d", td, xd, yd, wd, hd, hidd⟩
    let registry := [("x", (⟨"X", [cfga, cfgb, cfgc, cfgd]⟩ : SectionLayout))]
    let stAbsent : LayoutAppState :=
      ⟨[], [("x", true)], [("x", ["a", "c"])], PanelSystem.empty⟩
    let stEmpty : LayoutAppState :=
      ⟨[("x", [])], [("x", true)], [("x", ["a", "c"])], PanelSystem.empty⟩
    (App.loadSection registry events stAbsent "x" cont).panelSystem.panels =
      [("a", ⟨mkElem cfga cont, cfga⟩), ("c", ⟨mkElem cfgc cont, cfgc⟩)] ∧
    (App.loadSection registry events stEmpty "x" cont).panelSystem.panels =
      [("a", ⟨mkElem cfga cont, cfga⟩), ("c", ⟨mkElem cfgc cont, cfgc⟩)] :=
  ⟨rfl, rfl⟩

/-- C8 counterexample: with panel `a` created in container 0 and panel `b`
created in container 1, `clearAllPanels` called for container 0 also
removes `b` from tracking, contradicting the claim that instances of
other containers are left tracked. -/
theorem clearAllPanels_ignores_container :
    mapLookup sampleStore2.panels "b" = some ⟨mkElem sampleB 1, sampleB⟩ ∧
    (mkElem sampleB 1).container = 1 ∧
    (sampleStore2.clearAllPanels 0).panels = [] ∧
    mapLookup (sampleStore2.clearAllPanels 0).panels "b" = Option.none := by
  decide

/-- C8 (amended): `clearAllPanels` removes every tracked instance of the
store, regardless of which container it belongs to — the container
argument is ignored, so after the call no instance remains tracked at
all (previously orphaned elements are untouched). -/
theorem clearAllPanels_removes_all (s : PanelSystem) (c c₂ : Nat) :
    (s.clearAllPanels c).panels = [] ∧
    (s.clearAllPanels c).orphans = s.orphans ∧
    s.clearAllPanels c = s.clearAllPanels c₂ :=
  ⟨rfl, rfl, rfl⟩

/-- C9 (confirmed): `saveProjectState` is layout-preserving on empty
snapshots: with no current section it changes nothing, and with any
current section and an empty panel-store snapshot the saved layouts —
including a non-empty one for the current section — are left unchanged. -/
theorem saveProjectState_empty_snapshot_preserves (sys : PanelSystem)
    (layouts₀ : List (String × List PanelConfig)) :
    App.saveProjectState Option.none sys layouts₀ = layouts₀ ∧
    ∀ sectionName : String, sys.getPanelState = [] →
      App.saveProjectState (some sectionName) sys layouts₀ = layouts₀ := by
  refine ⟨rfl, ?_⟩
  intro sectionName h
  have hs : App.saveProjectState (some sectionName) sys layouts₀ =
      if 0 < sys.getPanelState.length then
        mapSet layouts₀ sectionName sys.getPanelState
      else layouts₀ := rfl
  rw [hs, h]
  simp

/-- C9 witness: a run with no current section, and a run with an empty
store while section `writing` has a non-empty saved layout, both leave
the saved layouts unchanged. -/
theorem saveProjectState_empty_snapshot_preserves_witness :
    App.saveProjectState Option.none sampleStore [("writing", [sampleA])] =
      [("writing", [sampleA])] ∧
    App.saveProjectState (some "writing") PanelSystem.empty
        [("writing", [sampleA])] = [("writing", [sampleA])] :=
  ⟨(saveProjectState_empty_snapshot_preserves sampleStore
      [("writing", [sampleA])]).1,
   (saveProjectState_empty_snapshot_preserves PanelSystem.empty
      [("writing", [sampleA])]).2 "writing" rfl⟩

end AllWrite
